import Mathlib

/-!
Verification of the task-orchestration layer of `tasks.py` in the
`colour-demosaicing` repository.

The repository source declares a static registry of invoke tasks with
prerequisite lists, and each task body issues shell commands through the
invoke `Context` (`ctx.run`, `ctx.cd`, `ctx.prefix`).  The task bodies and
the prerequisite declarations are embedded below directly from the source.
The orchestration core itself (dependency resolver, executor, scoped
context handling) lives in the external invoke library and is modelled
from the specification where noted.
-/

set_option maxHeartbeats 2000000

/-- `PYTHON_PACKAGE_NAME` from the source: the importable package name. -/
def PYTHON_PACKAGE_NAME : String := "colour_demosaicing"

/-- `PYPI_PACKAGE_NAME` from the source: the distribution name. -/
def PYPI_PACKAGE_NAME : String := "colour-demosaicing"

/-- The names of the tasks declared in `tasks.py` (`__all__` minus the
module constants). -/
inductive TaskName where
  | clean
  | formatting
  | tests
  | quality
  | examples
  | docs
  | todo
  | preflight
  | build
  | virtualise
  | tag
  | release
  | sha256
deriving DecidableEq, Fintype

/-- The prerequisite lists, exactly as declared by the decorators in the
source: `@task(formatting, tests, quality, examples)` on `preflight`,
`@task(docs, todo, preflight)` on `build`, `@task(clean, build)` on
`virtualise` and on `release`; every other task is declared with a bare
`@task`. -/
def prereqs : TaskName → List TaskName
  | .preflight => [.formatting, .tests, .quality, .examples]
  | .build => [.docs, .todo, .preflight]
  | .virtualise => [.clean, .build]
  | .release => [.clean, .build]
  | _ => []

/-- Modelled from the spec: the Dependency Resolver (spec 4.1, part of the
external invoke library, not in the repository source).  Depth-first
pre-order expansion of the prerequisite graph: a task's prerequisites are
expanded left-to-right, each prerequisite's own sub-prerequisites fully
resolved before the next sibling, a task already emitted is skipped
(deduplication at first encounter), and a task is emitted immediately
after all of its prerequisites.  `fuel` bounds the recursion depth; any
value at least the number of tasks suffices for the acyclic registry. -/
def resolveAux : Nat → TaskName → List TaskName → List TaskName
  | 0, _, done => done
  | n + 1, t, done =>
    if t ∈ done then done
    else ((prereqs t).foldl (fun acc p => resolveAux n p acc) done) ++ [t]

/-- Modelled from the spec: `resolve(T)` (spec 4.1) — the deduplicated
execution order for a requested task, ending with the task itself. -/
def resolve (t : TaskName) : List TaskName :=
  resolveAux 13 t []

/-- `transDepFuel n a b` holds when `b` is reachable from `a` through at
most `n` prerequisite edges (one or more edges). -/
def transDepFuel : Nat → TaskName → TaskName → Bool
  | 0, _, _ => false
  | n + 1, a, b => (prereqs a).any (fun p => p = b || transDepFuel n p b)

/-- `b` is a (direct or transitive) prerequisite of `a` in the declared
registry.  Thirteen tasks bound every acyclic path length. -/
def transDep (a b : TaskName) : Bool :=
  transDepFuel 13 a b

/-- Position of the first occurrence of `x` in a list (length of the list
when absent). -/
def posIn (x : TaskName) : List TaskName → Nat
  | [] => 0
  | y :: ys => if x = y then 0 else posIn x ys + 1

/-- Number of occurrences of `x` in a list. -/
def countIn (x : TaskName) : List TaskName → Nat
  | [] => 0
  | y :: ys => (if x = y then 1 else 0) + countIn x ys

/-- Modelled from the spec: the Context (spec 3, 4.4, owned by the
external invoke library) — a working-directory stack and an
environment-overlay stack threaded through one invocation. -/
structure Context where
  dirStack : List String
  overrides : List String
deriving DecidableEq

/-- The Context at the start of an invocation: empty directory stack and
empty environment overlay. -/
def initialContext : Context :=
  { dirStack := [], overrides := [] }

/-- Modelled from the spec: the outcome of running a task body (spec 4.2,
4.3) — the body's statements all succeeded, the body returned early, or a
Command Executor call reported a non-zero exit status. -/
inductive Outcome where
  | ok
  | returned
  | failed
deriving DecidableEq

/-- The statement language in which the source task bodies are embedded:
an informational message (`message_box`, no Command Executor call), a
`ctx.run` command, an early `return`, sequencing, a conditional on an
already-evaluated option, a `with ctx.cd(dir)` scope and a
`with ctx.prefix(...)` environment scope. -/
inductive Stmt where
  | skip
  | msg (text : String)
  | run (cmd : String)
  | ret
  | seq (a b : Stmt)
  | ite (cond : Bool) (t e : Stmt)
  | cd (dir : String) (body : Stmt)
  | env (v : String) (body : Stmt)

/-- Right fold of `Stmt.seq` over a block of statements. -/
def seqList (l : List Stmt) : Stmt :=
  l.foldr Stmt.seq Stmt.skip

/-- Modelled from the spec: execution of a body (spec 4.2-4.4).  The
`oracle` says which external commands exit with status zero.  Execution
returns the Context after the body, the body's outcome, and the commands
issued (a failing command is issued, then aborts the rest of the body).
`cd` and `env` scopes push on entry and pop on exit unconditionally,
whether the scoped body completed, returned or failed. -/
def execStmt (oracle : String → Bool) : Stmt → Context → Context × Outcome × List String
  | .skip, c => (c, .ok, [])
  | .msg _, c => (c, .ok, [])
  | .run cmd, c => (c, if oracle cmd then Outcome.ok else Outcome.failed, [cmd])
  | .ret, c => (c, .returned, [])
  | .seq a b, c =>
    let r := execStmt oracle a c
    match r.2.1 with
    | .ok =>
      let r2 := execStmt oracle b r.1
      (r2.1, r2.2.1, r.2.2 ++ r2.2.2)
    | o => (r.1, o, r.2.2)
  | .ite cond t e, c => if cond then execStmt oracle t c else execStmt oracle e c
  | .cd d b, c =>
    let r := execStmt oracle b { c with dirStack := c.dirStack ++ [d] }
    ({ r.1 with dirStack := r.1.dirStack.dropLast }, r.2.1, r.2.2)
  | .env v b, c =>
    let r := execStmt oracle b { c with overrides := c.overrides ++ [v] }
    ({ r.1 with overrides := r.1.overrides.dropLast }, r.2.1, r.2.2)

/-- The oracle under which every external command exits with status
zero. -/
def trueOracle : String → Bool :=
  fun _ => true

/-- The outcome of a task's body; by `execStmt_snd_context_independent`
below the outcome does not depend on the Context the body starts in. -/
def taskOutcome (oracle : String → Bool) (body : TaskName → Stmt) (t : TaskName) : Outcome :=
  (execStmt oracle (body t) initialContext).2.1

/-- Modelled from the spec: execution of a resolved sequence of tasks
(spec 4.2).  Stop-on-first-failure: a task whose body fails ends the run;
a body that merely returned early counts as executed and the run
continues.  Returns the final Context, the list of tasks whose bodies
ran (the failing task included), and whether the whole run succeeded. -/
def execSequence (oracle : String → Bool) (body : TaskName → Stmt) :
    List TaskName → Context → Context × List TaskName × Bool
  | [], c => (c, [], true)
  | t :: ts, c =>
    let r := execStmt oracle (body t) c
    if r.2.1 = Outcome.failed then (r.1, [t], false)
    else
      let r2 := execSequence oracle body ts r.1
      (r2.1, t :: r2.2.1, r2.2.2)

/-- Body of `clean`: the pattern list built from the `docs` and
`bytecode` options, exactly as in the source. -/
def cleanPatterns (docs bytecode : Bool) : List String :=
  let ps := ["build", "*.egg-info", "dist"]
  let ps := if docs then ps ++ ["docs/_build", "docs/generated"] else ps
  if bytecode then ps ++ ["**/*.pyc"] else ps

/-- Body of `clean`: a message, then one `rm -rf` command per pattern. -/
def cleanBody (docs bytecode : Bool) : Stmt :=
  seqList (Stmt.msg ("Cleaning project...") ::
    (cleanPatterns docs bytecode).map (fun p => Stmt.run ("rm -rf " ++ p)))

/-- Body of `formatting`: optional Yapf run, optional asciify run inside
`with ctx.cd('utilities')`. -/
def formattingBody (yapf asciify : Bool) : Stmt :=
  Stmt.seq
    (Stmt.ite yapf
      (seqList [Stmt.msg ("Formatting codebase with \"Yapf\"..."),
                Stmt.run ("yapf -p -i -r .")])
      Stmt.skip)
    (Stmt.ite asciify
      (seqList [Stmt.msg ("Converting unicode characters to ASCII..."),
                Stmt.cd ("utilities") (Stmt.run ("./unicode_to_ascii.py"))])
      Stmt.skip)

/-- Body of `tests`: an unconditional `return` (placed in the source
before the nose/pytest branch, behind a TODO about OpenImageIO), followed
by the now-unreachable branch on the `nose` option. -/
def testsBody (nose : Bool) : Stmt :=
  Stmt.seq Stmt.ret
    (Stmt.ite nose
      (seqList [Stmt.msg ("Running \"Nosetests\"..."),
                Stmt.run ("nosetests --with-doctest --with-coverage --cover-package=colour_demosaicing colour_demosaicing")])
      (seqList [Stmt.msg ("Running \"Pytest\"..."),
                Stmt.run ("pytest -W ignore")]))

/-- Body of `quality`: optional Flake8 check and optional rst-lint run. -/
def qualityBody (flake8 rstlint : Bool) : Stmt :=
  Stmt.seq
    (Stmt.ite flake8
      (seqList [Stmt.msg ("Checking codebase with \"Flake8\"..."),
                Stmt.run ("flake8 colour_demosaicing --exclude=examples")])
      Stmt.skip)
    (Stmt.ite rstlint
      (seqList [Stmt.msg ("Linting \"README.rst\" file..."),
                Stmt.run ("rst-lint README.rst")])
      Stmt.skip)

/-- Body of `examples`: one `python` command per example file discovered
by the file-system walk; the walk's findings are a parameter. -/
def examplesBody (files : List String) : Stmt :=
  seqList (Stmt.msg ("Running examples...") ::
    files.map (fun f => Stmt.run ("python " ++ f)))

/-- Body of `docs`: an environment prefix scope, inside it a
`with ctx.cd('docs')` scope, inside that the optional HTML and PDF
builds. -/
def docsBody (html pdf : Bool) : Stmt :=
  Stmt.env ("export COLOUR_SCIENCE_DOCUMENTATION_BUILD=True")
    (Stmt.cd ("docs")
      (Stmt.seq
        (Stmt.ite html
          (seqList [Stmt.msg ("Building \"HTML\" documentation..."),
                    Stmt.run ("make html")])
          Stmt.skip)
        (Stmt.ite pdf
          (seqList [Stmt.msg ("Building \"PDF\" documentation..."),
                    Stmt.run ("make latexpdf")])
          Stmt.skip)))

/-- Body of `todo`: export the TODO items from `utilities`. -/
def todoBody : Stmt :=
  seqList [Stmt.msg ("Exporting \"TODO\" items..."),
           Stmt.cd ("utilities") (Stmt.run ("./export_todo.py"))]

/-- Body of `preflight`: only a message; no Command Executor call. -/
def preflightBody : Stmt :=
  Stmt.msg ("Finishing \"Preflight\"...")

/-- Body of `build`: sdist and universal wheel builds. -/
def buildBody : Stmt :=
  seqList [Stmt.msg ("Building..."),
           Stmt.run ("python setup.py sdist"),
           Stmt.run ("python setup.py bdist_wheel --universal")]

/-- Body of `virtualise`: inside `with ctx.cd('dist')` the tarball
extraction and virtualenv creation, then inside the nested package
directory scope the `pwd` and the five pip installs; when the `tests`
option is set, the body returns before the `nosetests` call that follows
the `return` in the source. -/
def virtualiseBody (tests : Bool) : Stmt :=
  Stmt.cd ("dist")
    (seqList [
      Stmt.run ("tar -xvf colour-demosaicing-*.tar.gz"),
      Stmt.run ("virtualenv staging"),
      Stmt.cd ("colour-demosaicing-*")
        (seqList [
          Stmt.run ("pwd"),
          Stmt.run ("../staging/bin/pip install numpy==1.13.3"),
          Stmt.run ("../staging/bin/pip install -e ."),
          Stmt.run ("../staging/bin/pip install matplotlib"),
          Stmt.run ("../staging/bin/pip install nose"),
          Stmt.run ("../staging/bin/pip install mock"),
          Stmt.ite tests
            (Stmt.seq Stmt.ret (Stmt.run ("../staging/bin/nosetests")))
            Stmt.skip])])

/-- Body of `release`: twine uploads from `dist`. -/
def releaseBody : Stmt :=
  seqList [Stmt.msg ("Releasing..."),
           Stmt.cd ("dist")
             (seqList [Stmt.run ("twine upload *.tar.gz"),
                       Stmt.run ("twine upload *.whl")])]

/-- Body of `sha256`: the checksum command from `dist`. -/
def sha256Body : Stmt :=
  seqList [Stmt.msg ("Computing \"sha256\"..."),
           Stmt.cd ("dist") (Stmt.run ("openssl sha256 colour-demosaicing-*.tar.gz"))]

/-- The registry's bodies at the default option values (the values invoke
passes when a task runs as a prerequisite): `clean(docs=True,
bytecode=False)`, `formatting(yapf=False, asciify=True)`,
`tests(nose=True)`, `quality(flake8=True, rstlint=True)`,
`docs(html=True, pdf=True)`, `virtualise(tests=True)`.  `examples` runs
one command per discovered example file, a parameter here.  The `tag`
entry is a placeholder only: the source's `tag` body branches on
captured probe output, which the statement language does not carry, and
is modelled faithfully by `tagTrace` below; no theorem relies on the
placeholder — no task depends on `tag`, so it occurs only in
`resolve tag`, which the sequence theorems exclude by hypothesis. -/
def registryBodies (exampleFiles : List String) : TaskName → Stmt
  | .clean => cleanBody true false
  | .formatting => formattingBody false true
  | .tests => testsBody true
  | .quality => qualityBody true true
  | .examples => examplesBody exampleFiles
  | .docs => docsBody true true
  | .todo => todoBody
  | .preflight => preflightBody
  | .build => buildBody
  | .virtualise => virtualiseBody true
  | .tag => Stmt.skip
  | .release => releaseBody
  | .sha256 => sha256Body

/-- A `ctx.run` call site of the `tag` body: the command line, whether
output is hidden and captured (`hide='both'`), and whether the call opts
out of the default fatal treatment of a non-zero exit status (invoke's
`warn`; the spec's per-call opt-in, 4.3).  No call in the `tag` body
passes `warn`. -/
structure RunCall where
  cmd : String
  hide : Bool
  warn : Bool
deriving DecidableEq

/-- The branch probe of `tag`: captured, not opted out of fatality. -/
def tagProbeBranch : RunCall :=
  { cmd := "git rev-parse --abbrev-ref HEAD", hide := true, warn := false }

/-- The remote-tag probe of `tag`: captured, not opted out of fatality. -/
def tagProbeTags : RunCall :=
  { cmd := "git ls-remote --tags upstream", hide := true, warn := false }

/-- The `git flow release start` call of `tag`. -/
def gfStart (version : String) : RunCall :=
  { cmd := "git flow release start v" ++ version, hide := false, warn := false }

/-- The `git flow release finish` call of `tag`. -/
def gfFinish (version : String) : RunCall :=
  { cmd := "git flow release finish v" ++ version, hide := false, warn := false }

/-- Python's `str.strip` on a character list: leading and trailing
whitespace removed. -/
def trimChars (l : List Char) : List Char :=
  ((l.dropWhile Char.isWhitespace).reverse.dropWhile Char.isWhitespace).reverse

/-- Python's `str.strip`. -/
def strStrip (s : String) : String :=
  String.mk (trimChars s.data)

/-- Python's `str.split(sep)` on character lists, for a non-empty
separator; the fuel argument (any value beyond the input length) keeps
the recursion structural. -/
def splitOnFuel (sep : List Char) : Nat → List Char → List Char → List (List Char)
  | 0, l, acc => [acc.reverse ++ l]
  | n + 1, l, acc =>
    match l with
    | [] => [acc.reverse]
    | ch :: rest =>
      if sep ≠ [] ∧ sep.isPrefixOf (ch :: rest) then
        acc.reverse :: splitOnFuel sep n (List.drop sep.length (ch :: rest)) []
      else
        splitOnFuel sep n rest (ch :: acc)

/-- Python's `str.split(sep)`. -/
def strSplitOn (s sep : String) : List String :=
  (splitOnFuel sep.data (s.data.length + 1) s.data []).map String.mk

/-- Python's `str.replace(pat, rep)` on character lists, for a non-empty
pattern, with structural fuel. -/
def replaceFuel (pat rep : List Char) : Nat → List Char → List Char
  | 0, l => l
  | _ + 1, [] => []
  | n + 1, ch :: rest =>
    if pat ≠ [] ∧ pat.isPrefixOf (ch :: rest) then
      rep ++ replaceFuel pat rep n (List.drop pat.length (ch :: rest))
    else
      ch :: replaceFuel pat rep n rest

/-- Python's `str.replace(pat, rep)`. -/
def strReplace (s pat rep : String) : String :=
  String.mk (replaceFuel pat.data rep.data (s.data.length + 1) s.data)

/-- Keep-first duplicate erasure, modelling collection into a Python
set (whose only use in the source is a membership test). -/
def dedupKeepFirst : List String → List String
  | [] => []
  | x :: xs => x :: (dedupKeepFirst xs).filter (fun y => !(y == x))

/-- Tag extraction from one `git ls-remote` line, as in the source: split
on `refs/tags/`, take part 1 — `none` models the IndexError the source's
`[1]` raises on a line without the separator (as when the remote tag
list is empty) — then replace any further `refs/tags/` (a no-op after
the split) with the peel suffix. -/
def parseRemoteTag (line : String) : Option String :=
  match (strSplitOn line ("refs/tags/")).get? 1 with
  | none => none
  | some part => some (strReplace part ("refs/tags/") ("^\x7b\x7d"))

/-- The set of remote tags from the captured probe output, as in the
source: strip, split on newlines, extract each line, collect into a set
(the source's final sort does not affect membership).  `none` when any
line lacks the `refs/tags/` separator: the source's loop then raises
IndexError before the tag assertion is reached. -/
def tagsFromOutput (tagsOut : String) : Option (List String) :=
  let parsed := (strSplitOn (strStrip tagsOut) ("\n")).map parseRemoteTag
  if parsed.all Option.isSome then some (dedupKeepFirst (parsed.filterMap id))
  else none

/-- How the `tag` body ends: both assertions passed and the `git flow`
commands were issued; an assertion failed with its message; or the
remote-tag parsing raised IndexError (uncaught). -/
inductive TagOutcome where
  | ok
  | assertionFailed (msg : String)
  | indexError
deriving DecidableEq

/-- The body of `tag` as a function of the captured probe outputs and the
version read from `__init__.py`: the issued `ctx.run` calls in order, and
how the body ends.  As in the source, the branch assertion is checked
before the remote-tag probe is issued; a tag-output line without the
`refs/tags/` separator raises IndexError after both probes but before
the tag assertion; and the two `git flow` commands are issued only after
both assertions pass. -/
def tagTrace (branchOut tagsOut version : String) : List RunCall × TagOutcome :=
  if strStrip branchOut = "develop" then
    match tagsFromOutput tagsOut with
    | none => ([tagProbeBranch, tagProbeTags], TagOutcome.indexError)
    | some tags =>
      if ("v" ++ version) ∈ tags then
        ([tagProbeBranch, tagProbeTags],
         TagOutcome.assertionFailed ("A \"colour_demosaicing\" \"v" ++ version ++
           "\" tag already exists in remote repository!"))
      else
        ([tagProbeBranch, tagProbeTags, gfStart version, gfFinish version],
         TagOutcome.ok)
  else
    ([tagProbeBranch],
     TagOutcome.assertionFailed ("Are you still on a feature or master branch?"))

theorem execStmt_context_restored (oracle : String → Bool) :
    ∀ (s : Stmt) (c : Context),
      (execStmt oracle s c).1.dirStack = c.dirStack ∧
      (execStmt oracle s c).1.overrides = c.overrides := by
  intro s
  induction s with
  | skip => intro c; exact ⟨rfl, rfl⟩
  | msg t => intro c; exact ⟨rfl, rfl⟩
  | run cmd => intro c; exact ⟨rfl, rfl⟩
  | ret => intro c; exact ⟨rfl, rfl⟩
  | seq a b iha ihb =>
    intro c
    simp only [execStmt]
    split
    · exact ⟨((ihb _).1).trans (iha c).1, ((ihb _).2).trans (iha c).2⟩
    · exact ⟨(iha c).1, (iha c).2⟩
  | ite cond t e iht ihe =>
    intro c
    cases cond
    · exact ihe c
    · exact iht c
  | cd d b ih =>
    intro c
    constructor
    · show ((execStmt oracle b { c with dirStack := c.dirStack ++ [d] }).1.dirStack).dropLast = c.dirStack
      rw [(ih _).1]
      simp
    · exact (ih _).2
  | env v b ih =>
    intro c
    constructor
    · exact (ih _).1
    · show ((execStmt oracle b { c with overrides := c.overrides ++ [v] }).1.overrides).dropLast = c.overrides
      rw [(ih _).2]
      simp

theorem execStmt_snd_context_independent (oracle : String → Bool) :
    ∀ (s : Stmt) (c d : Context),
      (execStmt oracle s c).2 = (execStmt oracle s d).2 := by
  intro s
  induction s with
  | skip => intro c d; rfl
  | msg t => intro c d; rfl
  | run cmd => intro c d; rfl
  | ret => intro c d; rfl
  | seq a b iha ihb =>
    intro c d
    simp only [execStmt]
    have ha := iha c d
    have hout : (execStmt oracle a d).2.1 = (execStmt oracle a c).2.1 := by rw [ha]
    have hcmds : (execStmt oracle a c).2.2 = (execStmt oracle a d).2.2 := by rw [ha]
    rw [hout]
    have hb := ihb (execStmt oracle a c).1 (execStmt oracle a d).1
    have hb1 : (execStmt oracle b (execStmt oracle a c).1).2.1
        = (execStmt oracle b (execStmt oracle a d).1).2.1 := by rw [hb]
    have hb2 : (execStmt oracle b (execStmt oracle a c).1).2.2
        = (execStmt oracle b (execStmt oracle a d).1).2.2 := by rw [hb]
    cases h : (execStmt oracle a c).2.1 with
    | ok =>
      show ((execStmt oracle b (execStmt oracle a c).1).2.1,
            (execStmt oracle a c).2.2 ++ (execStmt oracle b (execStmt oracle a c).1).2.2)
          = ((execStmt oracle b (execStmt oracle a d).1).2.1,
             (execStmt oracle a d).2.2 ++ (execStmt oracle b (execStmt oracle a d).1).2.2)
      rw [hb1, hb2, hcmds]
    | returned =>
      show (Outcome.returned, (execStmt oracle a c).2.2)
          = (Outcome.returned, (execStmt oracle a d).2.2)
      rw [hcmds]
    | failed =>
      show (Outcome.failed, (execStmt oracle a c).2.2)
          = (Outcome.failed, (execStmt oracle a d).2.2)
      rw [hcmds]
  | ite cond t e iht ihe =>
    intro c d
    cases cond
    · exact ihe c d
    · exact iht c d
  | cd dd b ih =>
    intro c d
    simp only [execStmt]
    rw [ih { c with dirStack := c.dirStack ++ [dd] } { d with dirStack := d.dirStack ++ [dd] }]
  | env v b ih =>
    intro c d
    simp only [execStmt]
    rw [ih { c with overrides := c.overrides ++ [v] } { d with overrides := d.overrides ++ [v] }]

theorem execStmt_trueOracle_not_failed :
    ∀ (s : Stmt) (c : Context), (execStmt trueOracle s c).2.1 ≠ Outcome.failed := by
  intro s
  induction s with
  | skip => intro c h; exact Outcome.noConfusion h
  | msg t => intro c h; exact Outcome.noConfusion h
  | run cmd => intro c h; exact Outcome.noConfusion h
  | ret => intro c h; exact Outcome.noConfusion h
  | seq a b iha ihb =>
    intro c
    simp only [execStmt]
    split
    · exact ihb _
    · intro hcon
      exact iha c hcon
  | ite cond t e iht ihe =>
    intro c
    cases cond
    · exact ihe c
    · exact iht c
  | cd d b ih => intro c; exact ih _
  | env v b ih => intro c; exact ih _

theorem execSequence_trueOracle_runs_all (body : TaskName → Stmt) :
    ∀ (order : List TaskName) (c : Context),
      (execSequence trueOracle body order c).2 = (order, true) := by
  intro order
  induction order with
  | nil => intro c; rfl
  | cons t ts ih =>
    intro c
    simp only [execSequence]
    rw [if_neg (execStmt_trueOracle_not_failed (body t) c)]
    show (t :: (execSequence trueOracle body ts (execStmt trueOracle (body t) c).1).2.1,
          (execSequence trueOracle body ts (execStmt trueOracle (body t) c).1).2.2)
        = (t :: ts, true)
    rw [ih]

theorem execSequence_stop_on_failure (oracle : String → Bool) (body : TaskName → Stmt) :
    ∀ (pre : List TaskName) (t : TaskName) (post : List TaskName) (c : Context),
      (∀ u ∈ pre, taskOutcome oracle body u ≠ Outcome.failed) →
      taskOutcome oracle body t = Outcome.failed →
      (execSequence oracle body (pre ++ t :: post) c).2 = (pre ++ [t], false) := by
  intro pre
  induction pre with
  | nil =>
    intro t post c hpre ht
    simp only [List.nil_append, execSequence]
    rw [if_pos]
    have := execStmt_snd_context_independent oracle (body t) c initialContext
    have h1 : (execStmt oracle (body t) c).2.1 = taskOutcome oracle body t := by
      show (execStmt oracle (body t) c).2.1 = (execStmt oracle (body t) initialContext).2.1
      rw [this]
    rw [h1, ht]
  | cons u pre ih =>
    intro t post c hpre ht
    simp only [List.cons_append, execSequence]
    have hu : (execStmt oracle (body u) c).2.1 ≠ Outcome.failed := by
      have h1 : (execStmt oracle (body u) c).2.1 = taskOutcome oracle body u := by
        show (execStmt oracle (body u) c).2.1 = (execStmt oracle (body u) initialContext).2.1
        rw [execStmt_snd_context_independent oracle (body u) c initialContext]
      rw [h1]
      exact hpre u (List.mem_cons_self u pre)
    rw [if_neg hu]
    have hrest := ih t post (execStmt oracle (body u) c).1
      (fun v hv => hpre v (List.mem_cons_of_mem u hv)) ht
    show (u :: (execSequence oracle body (pre ++ t :: post) (execStmt oracle (body u) c).1).2.1,
          (execSequence oracle body (pre ++ t :: post) (execStmt oracle (body u) c).1).2.2)
        = (u :: pre ++ [t], false)
    rw [hrest]
    rfl

theorem execStmt_context_id (oracle : String → Bool) (s : Stmt) (c : Context) :
    (execStmt oracle s c).1 = c := by
  have h := execStmt_context_restored oracle s c
  cases hc : (execStmt oracle s c).1 with
  | mk ds ov =>
    rw [hc] at h
    cases c with
    | mk ds2 ov2 =>
      simp only [] at h
      rw [h.1, h.2]

theorem execStmt_oracle_refines (oracle : String → Bool) :
    ∀ (s : Stmt) (c : Context),
      ((execStmt oracle s c).2.1 = Outcome.failed ∧
        (execStmt oracle s c).2.2 <+: (execStmt trueOracle s c).2.2) ∨
      (execStmt oracle s c).2 = (execStmt trueOracle s c).2 := by
  intro s
  induction s with
  | skip => intro c; right; rfl
  | msg t => intro c; right; rfl
  | run cmd =>
    intro c
    by_cases h : oracle cmd
    · right; simp [execStmt, h, trueOracle]
    · left
      constructor
      · simp [execStmt, h]
      · simp [execStmt]
  | ret => intro c; right; rfl
  | seq a b iha ihb =>
    intro c
    have hca : (execStmt oracle a c).1 = c := execStmt_context_id oracle a c
    have hta : (execStmt trueOracle a c).1 = c := execStmt_context_id trueOracle a c
    rcases iha c with ⟨hfail, hpre⟩ | heq
    · left
      simp only [execStmt, hfail]
      refine ⟨trivial, ?_⟩
      cases ht : (execStmt trueOracle a c).2.1 with
      | ok =>
        simp only [ht]
        exact hpre.trans (List.prefix_append _ _)
      | returned =>
        simp only [ht]
        exact hpre
      | failed => exact absurd ht (execStmt_trueOracle_not_failed a c)
    · have hout : (execStmt oracle a c).2.1 = (execStmt trueOracle a c).2.1 := by rw [heq]
      have hcmds : (execStmt oracle a c).2.2 = (execStmt trueOracle a c).2.2 := by rw [heq]
      simp only [execStmt]
      cases h : (execStmt oracle a c).2.1 with
      | ok =>
        have ht : (execStmt trueOracle a c).2.1 = Outcome.ok := by rw [← hout, h]
        simp only [ht, hca, hta]
        rcases ihb c with ⟨hbf, hbpre⟩ | heqb
        · left
          refine ⟨hbf, ?_⟩
          rw [hcmds]
          obtain ⟨tl, htl⟩ := hbpre
          exact ⟨tl, by rw [List.append_assoc, htl]⟩
        · right
          have hb1 : (execStmt oracle b c).2.1 = (execStmt trueOracle b c).2.1 := by rw [heqb]
          have hb2 : (execStmt oracle b c).2.2 = (execStmt trueOracle b c).2.2 := by rw [heqb]
          rw [hb1, hb2, hcmds]
      | returned =>
        have ht : (execStmt trueOracle a c).2.1 = Outcome.returned := by rw [← hout, h]
        simp only [ht]
        right
        rw [hcmds]
      | failed =>
        have ht : (execStmt trueOracle a c).2.1 = Outcome.failed := by rw [← hout, h]
        exact absurd ht (execStmt_trueOracle_not_failed a c)
  | ite cond t e iht ihe =>
    intro c
    cases cond
    · exact ihe c
    · exact iht c
  | cd d b ih =>
    intro c
    simp only [execStmt]
    exact ih _
  | env v b ih =>
    intro c
    simp only [execStmt]
    exact ih _

/-- Claim C1 counterexample: requesting the top-level composite task
(`build`, the spec scenario's `full`) does not yield the seven-element
order of the claim — the resolver also emits `preflight`, between
`examples` and `build`. -/
theorem c1_full_order_counterexample :
    resolve TaskName.build ≠
      [TaskName.docs, TaskName.todo, TaskName.formatting, TaskName.tests,
       TaskName.quality, TaskName.examples, TaskName.build] := by
  decide

/-- Claim C1 (amended): requesting `build` yields the execution order
`[docs, todo, formatting, tests, quality, examples, preflight, build]` —
each task exactly once, prerequisites before dependents, left-to-right
among siblings — where `preflight` contributes no Command Executor call
of its own (its body is a single message and succeeds trivially). -/
theorem c1_full_order :
    resolve TaskName.build =
      [TaskName.docs, TaskName.todo, TaskName.formatting, TaskName.tests,
       TaskName.quality, TaskName.examples, TaskName.preflight, TaskName.build] ∧
    (resolve TaskName.build).Nodup ∧
    (execStmt trueOracle preflightBody initialContext).2.2 = [] ∧
    (execStmt trueOracle preflightBody initialContext).2.1 = Outcome.ok := by
  exact ⟨by decide, by decide, rfl, rfl⟩

/-- Claim C2: for every task in the (acyclic) registry, `resolve`
returns the task and each of its transitive prerequisites exactly once
(the list is duplicate-free and its members are exactly the task and its
transitive prerequisites), and every transitive prerequisite appears
strictly before every task that directly or transitively depends on it;
the left-to-right pre-order expansion of sibling prerequisites is the
defining clause of `resolveAux`. -/
theorem c2_resolve_exactly_once_topological :
    ∀ T : TaskName,
      (resolve T).Nodup ∧
      (∀ u : TaskName, u ∈ resolve T ↔ (u = T ∨ transDep T u = true)) ∧
      (∀ a b : TaskName, a ∈ resolve T → transDep a b = true →
        posIn b (resolve T) < posIn a (resolve T)) := by
  decide

/-- Witness for C2 at a concrete input: `virtualise` transitively
depends on `tests`, and in `resolve(virtualise)` the prerequisite
`tests` appears strictly before `virtualise`. -/
theorem c2_resolve_exactly_once_topological_witness :
    TaskName.virtualise ∈ resolve TaskName.virtualise ∧
    transDep TaskName.virtualise TaskName.tests = true ∧
    posIn TaskName.tests (resolve TaskName.virtualise) <
      posIn TaskName.virtualise (resolve TaskName.virtualise) :=
  ⟨by decide, by decide,
    (c2_resolve_exactly_once_topological TaskName.virtualise).2.2
      TaskName.virtualise TaskName.tests (by decide) (by decide)⟩

/-- Claim C3: the prerequisite relation over all thirteen declared tasks
is acyclic — no task directly or transitively depends on itself. -/
theorem c3_registry_acyclic : ∀ t : TaskName, transDep t t = false := by
  decide

/-- Claim C4: stop-on-first-failure.  For every resolved execution
sequence split as `pre ++ t :: post`, if every task of `pre` succeeds and
`t`'s body reports a failing Command Executor call, then exactly the
tasks of `pre` and then `t` run — no task of `post` (prerequisite or
not) runs, and the run reports failure.  In a chain A depends on B
depends on C with C first in resolver order and C's body failing, only C
runs. -/
theorem c4_stop_on_first_failure (oracle : String → Bool)
    (body : TaskName → Stmt) (T : TaskName) (pre : List TaskName)
    (t : TaskName) (post : List TaskName) (c : Context)
    (hres : resolve T = pre ++ t :: post)
    (hpre : ∀ u ∈ pre, taskOutcome oracle body u ≠ Outcome.failed)
    (ht : taskOutcome oracle body t = Outcome.failed) :
    (execSequence oracle body (resolve T) c).2 = (pre ++ [t], false) := by
  rw [hres]
  exact execSequence_stop_on_failure oracle body pre t post c hpre ht

/-- Witness for C4 at a concrete input: with every command succeeding
except `make html`, requesting `build` runs only `docs` (which fails);
`todo`, `formatting`, `tests`, `quality`, `examples`, `preflight` and
`build`'s own body never run. -/
theorem c4_stop_on_first_failure_witness :
    taskOutcome (fun cmd => !(cmd == "make html")) (registryBodies []) TaskName.docs
      = Outcome.failed ∧
    (execSequence (fun cmd => !(cmd == "make html")) (registryBodies [])
      (resolve TaskName.build) initialContext).2 = ([TaskName.docs], false) :=
  ⟨by decide,
    c4_stop_on_first_failure (fun cmd => !(cmd == "make html")) (registryBodies [])
      TaskName.build [] TaskName.docs
      [TaskName.todo, TaskName.formatting, TaskName.tests, TaskName.quality,
       TaskName.examples, TaskName.preflight, TaskName.build]
      initialContext (by decide) (by simp) (by decide)⟩

/-- Claim C5: for every path and every body (hence for every scoped
`cd`/`env` acquisition, arbitrarily nested), executing the body leaves
the Context's working-directory stack and environment overlay exactly as
they were.  The oracle is universally quantified, so this covers bodies
that fail partway as well as bodies that complete or return early: a
failure inside a nested scope never leaves the Context altered for tasks
that run afterward. -/
theorem c5_scoped_context_restored (oracle : String → Bool) (s : Stmt) (c : Context) :
    (execStmt oracle s c).1.dirStack = c.dirStack ∧
    (execStmt oracle s c).1.overrides = c.overrides :=
  execStmt_context_restored oracle s c

/-- Claim C6: a task whose body does no work still counts as executed
for deduplication.  The `tests` body returns early without issuing any
Command Executor call (under every oracle and from every Context), its
outcome is `returned` — not a failure, so the sequence continues — and
in any requested task's resolved order `tests` appears at most once;
executing a resolved order with all commands succeeding runs each task
in it exactly once (the ran list is the resolved order itself).  The
last part is restricted to invocations whose resolved order does not
reach `tag` — the one task whose body `registryBodies` does not embed
faithfully (it branches on captured output and can abort on an
assertion or IndexError even with every command succeeding); no task
depends on `tag`, so only `resolve tag` itself is excluded. -/
theorem c6_skipped_body_counts_executed :
    (∀ (nose : Bool) (oracle : String → Bool) (c : Context),
      (execStmt oracle (testsBody nose) c).2.1 = Outcome.returned ∧
      (execStmt oracle (testsBody nose) c).2.2 = []) ∧
    (∀ T : TaskName, countIn TaskName.tests (resolve T) ≤ 1) ∧
    (∀ (files : List String) (T : TaskName) (c : Context),
      TaskName.tag ∉ resolve T →
      (execSequence trueOracle (registryBodies files) (resolve T) c).2
        = (resolve T, true)) := by
  refine ⟨?_, by decide, ?_⟩
  · intro nose oracle c
    exact ⟨rfl, rfl⟩
  · intro files T c _
    exact execSequence_trueOracle_runs_all (registryBodies files) (resolve T) c

/-- Witness for C6 at a concrete input: `resolve virtualise` does not
reach `tag`, and the all-success run of it executes its resolved order
exactly — `tests`, with its empty early-returning body, included
exactly once. -/
theorem c6_skipped_body_counts_executed_witness :
    TaskName.tag ∉ resolve TaskName.virtualise ∧
    (execSequence trueOracle (registryBodies []) (resolve TaskName.virtualise)
      initialContext).2 = (resolve TaskName.virtualise, true) :=
  ⟨by decide,
   c6_skipped_body_counts_executed.2.2 [] TaskName.virtualise initialContext (by decide)⟩

/-- Claim C7 counterexample: the two probe commands of the `tag` body do
not opt out of the default fatal treatment of a non-zero exit status
(no `warn` at either call site, only `hide='both'`), so they are not
consulted "rather than as fatal command failures": a failing probe is
fatal under the Command Executor's default policy. -/
theorem c7_tag_probes_counterexample :
    ¬ (tagProbeBranch.warn = true ∧ tagProbeTags.warn = true) := by
  decide

/-- Claim C7 (amended): the `tag` body captures the branch probe's and
the remote-tag probe's output (`hide`) and consults the text to check
its two assertions, without opting out of the default fatal non-zero
policy (`warn = false` at both call sites); the branch probe is always
issued, the remote-tag probe is issued exactly when the branch assertion
passes, and the state-changing `git flow release start`/`finish`
commands are issued — equivalently, the body ends normally — exactly
when the current branch is develop, the captured tag output parses (no
IndexError), and tag `v<version>` is absent from the parsed remote tags;
when some tag-output line lacks the `refs/tags/` separator (as with an
empty remote tag list), the body raises IndexError after both probes and
issues neither `git flow` command. -/
theorem c7_tag_gating :
    ∀ (branchOut tagsOut version : String),
      (tagProbeBranch ∈ (tagTrace branchOut tagsOut version).1) ∧
      (tagProbeTags ∈ (tagTrace branchOut tagsOut version).1 ↔
        strStrip branchOut = "develop") ∧
      (gfStart version ∈ (tagTrace branchOut tagsOut version).1 ↔
        (strStrip branchOut = "develop" ∧
          ∃ tags, tagsFromOutput tagsOut = some tags ∧ ("v" ++ version) ∉ tags)) ∧
      (gfFinish version ∈ (tagTrace branchOut tagsOut version).1 ↔
        (strStrip branchOut = "develop" ∧
          ∃ tags, tagsFromOutput tagsOut = some tags ∧ ("v" ++ version) ∉ tags)) ∧
      ((tagTrace branchOut tagsOut version).2 = TagOutcome.ok ↔
        (strStrip branchOut = "develop" ∧
          ∃ tags, tagsFromOutput tagsOut = some tags ∧ ("v" ++ version) ∉ tags)) ∧
      ((tagTrace branchOut tagsOut version).2 = TagOutcome.indexError ↔
        (strStrip branchOut = "develop" ∧ tagsFromOutput tagsOut = none)) ∧
      tagProbeBranch.hide = true ∧ tagProbeTags.hide = true ∧
      tagProbeBranch.warn = false ∧ tagProbeTags.warn = false := by
  intro b t v
  unfold tagTrace
  by_cases h1 : strStrip b = "develop"
  · rw [if_pos h1]
    cases ht : tagsFromOutput t with
    | none => simp +decide [tagProbeBranch, tagProbeTags, gfStart, gfFinish, h1, ht]
    | some tags =>
      by_cases h2 : ("v" ++ v) ∈ tags
      · simp +decide [tagProbeBranch, tagProbeTags, gfStart, gfFinish, h1, ht, h2]
      · simp +decide [tagProbeBranch, tagProbeTags, gfStart, gfFinish, h1, ht, h2]
  · rw [if_neg h1]
    simp +decide [tagProbeBranch, tagProbeTags, gfStart, gfFinish, h1]

/-- Claim C8: for every value of the `nose` option, every oracle and
every Context, the `tests` body issues no Command Executor call at all
— the unconditional `return` precedes both the nosetests and the pytest
command — so the task is a no-op that merely returns. -/
theorem c8_tests_body_noop :
    ∀ (nose : Bool) (oracle : String → Bool) (c : Context),
      (execStmt oracle (testsBody nose) c).2.2 = [] ∧
      (execStmt oracle (testsBody nose) c).2.1 = Outcome.returned := by
  intro nose oracle c
  exact ⟨rfl, rfl⟩

/-- Claim C9: for every value of the `tests` option, the `virtualise`
body never issues the nosetests command — under any oracle its issued
commands are a prefix of the all-success run, which consists of exactly
the tarball extraction, the virtualenv creation, `pwd` and the five pip
installs, in order, with nosetests absent. -/
theorem c9_virtualise_no_nosetests :
    ∀ (tests : Bool) (c : Context),
      (execStmt trueOracle (virtualiseBody tests) c).2.2 =
        ["tar -xvf colour-demosaicing-*.tar.gz", "virtualenv staging", "pwd",
         "../staging/bin/pip install numpy==1.13.3",
         "../staging/bin/pip install -e .",
         "../staging/bin/pip install matplotlib",
         "../staging/bin/pip install nose",
         "../staging/bin/pip install mock"] ∧
      ∀ (oracle : String → Bool),
        "../staging/bin/nosetests" ∉ (execStmt oracle (virtualiseBody tests) c).2.2 := by
  intro tests c
  have hfull : (execStmt trueOracle (virtualiseBody tests) c).2.2 =
      ["tar -xvf colour-demosaicing-*.tar.gz", "virtualenv staging", "pwd",
       "../staging/bin/pip install numpy==1.13.3",
       "../staging/bin/pip install -e .",
       "../staging/bin/pip install matplotlib",
       "../staging/bin/pip install nose",
       "../staging/bin/pip install mock"] := by
    cases tests <;> rfl
  refine ⟨hfull, ?_⟩
  intro oracle hmem
  have hnot : "../staging/bin/nosetests" ∉
      (execStmt trueOracle (virtualiseBody tests) c).2.2 := by
    rw [hfull]
    decide
  rcases execStmt_oracle_refines oracle (virtualiseBody tests) c with ⟨_, hpre⟩ | heq
  · exact hnot (hpre.subset hmem)
  · have : (execStmt oracle (virtualiseBody tests) c).2.2 =
        (execStmt trueOracle (virtualiseBody tests) c).2.2 := by rw [heq]
    rw [this] at hmem
    exact hnot hmem

/-- Claim C10: for every combination of its options, the `clean` body
issues exactly one `rm -rf` command per pattern, in order — always
`build`, `*.egg-info`, `dist`; then `docs/_build` and `docs/generated`
exactly when the `docs` option is set; then `**/*.pyc` exactly when the
`bytecode` option is set — and no other commands. -/
theorem c10_clean_commands :
    ∀ (docs bytecode : Bool) (c : Context),
      (execStmt trueOracle (cleanBody docs bytecode) c).2.2 =
        ["rm -rf build", "rm -rf *.egg-info", "rm -rf dist"] ++
        (if docs then ["rm -rf docs/_build", "rm -rf docs/generated"] else []) ++
        (if bytecode then ["rm -rf **/*.pyc"] else []) := by
  intro docs bytecode c
  cases docs <;> cases bytecode <;> rfl

/-- Witness for C7 at concrete probe outputs: on branch develop with
remote tag `v0.1.0` present and version `0.2.0`, the body ends normally
and the `git flow release start` command is issued; with empty remote
tag output the body instead ends in IndexError. -/
theorem c7_tag_gating_witness :
    (tagTrace ("develop") ("abc refs/tags/v0.1.0") ("0.2.0")).2 = TagOutcome.ok ∧
    gfStart ("0.2.0") ∈ (tagTrace ("develop") ("abc refs/tags/v0.1.0") ("0.2.0")).1 ∧
    (tagTrace ("develop") ("") ("0.2.0")).2 = TagOutcome.indexError :=
  ⟨((c7_tag_gating ("develop") ("abc refs/tags/v0.1.0") ("0.2.0")).2.2.2.2.1).mpr
      ⟨by decide, ⟨["v0.1.0"], by decide, by decide⟩⟩,
   ((c7_tag_gating ("develop") ("abc refs/tags/v0.1.0") ("0.2.0")).2.2.1).mpr
      ⟨by decide, ⟨["v0.1.0"], by decide, by decide⟩⟩,
   ((c7_tag_gating ("develop") ("") ("0.2.0")).2.2.2.2.2.1).mpr
      ⟨by decide, by decide⟩⟩

/-- Witness for C9 at a concrete input: with the `tests` option set,
under the all-success oracle the nosetests binary is not among the
commands the `virtualise` body issues. -/
theorem c9_virtualise_no_nosetests_witness :
    "../staging/bin/nosetests" ∉
      (execStmt trueOracle (virtualiseBody true) initialContext).2.2 :=
  (c9_virtualise_no_nosetests true initialContext).2 trueOracle
